import Mathlib

/-!
Verification development for the FastAPI/React/MongoDB todo service
(`auth_utils.py`, `database.py`, `routers/route_auth.py`,
`routers/route_todo.py`).

Python strings are modelled as `List Char` (`PyStr`).  Wall-clock time is
modelled in integer seconds, matching PyJWT, which serialises `datetime`
claims via `timegm(value.utctimetuple())` and therefore truncates to whole
seconds.  JWT token strings are modelled by a concrete injective
serialisation of the payload `{sub, iat, exp}` together with the signing
key; what the claims rely on is exactly what HS256 JWTs provide: encoding
is deterministic, decoding with the right key recovers the payload, and
decoding with a wrong key or of a non-token string fails.
-/

/-- Python `str`, modelled as a list of characters. -/
abbrev PyStr := List Char

instance {ε α : Type _} [DecidableEq ε] [DecidableEq α] : DecidableEq (Except ε α)
  | .error e, .error f =>
    if h : e = f then .isTrue (h ▸ rfl)
    else .isFalse (fun hh => h (Except.error.inj hh))
  | .error _, .ok _ => .isFalse Except.noConfusion
  | .ok _, .error _ => .isFalse Except.noConfusion
  | .ok a, .ok b =>
    if h : a = b then .isTrue (h ▸ rfl)
    else .isFalse (fun hh => h (Except.ok.inj hh))

/-- Python `s.partition(sep)` for a one-character separator: split at the
first occurrence of `sep`; the `Bool` records whether the separator was
found (Python returns the separator itself there, and `("", "")` for the
middle and tail when it is absent). -/
def pyPartition : PyStr → Char → PyStr × Bool × PyStr
  | [], _ => ([], false, [])
  | c :: cs, sep =>
    if c = sep then ([], true, cs)
    else
      let r := pyPartition cs sep
      (c :: r.1, r.2.1, r.2.2)

theorem pyPartition_not_mem (sep : Char) :
    ∀ s : PyStr, sep ∉ s → pyPartition s sep = (s, false, []) := by
  intro s
  induction s with
  | nil => intro _; rfl
  | cons c cs ih =>
    intro h
    have hc : c ≠ sep := fun heq => h (heq ▸ List.mem_cons_self c cs)
    have hcs : sep ∉ cs := fun hm => h (List.mem_cons_of_mem c hm)
    simp [pyPartition, hc, ih hcs]

theorem pyPartition_append (sep : Char) :
    ∀ p r : PyStr, sep ∉ p → pyPartition (p ++ sep :: r) sep = (p, true, r) := by
  intro p
  induction p with
  | nil => intro r _; simp [pyPartition]
  | cons c cs ih =>
    intro r h
    have hc : c ≠ sep := fun heq => h (heq ▸ List.mem_cons_self c cs)
    have hcs : sep ∉ cs := fun hm => h (List.mem_cons_of_mem c hm)
    simp [pyPartition, hc, ih r hcs]

/-! ### JWT payloads and their serialisation

`jwt.encode` in PyJWT serialises the payload to JSON and signs it; the
resulting string is a deterministic, invertible (up to the signing key)
image of the payload.  We realise this with an explicit escape-based
serialisation: fields are separated by `'.'`, `'.'` and `'\'` inside a
field are escaped with `'\'`, and the integer claims are written in unary
with `'I'`.  `parseTok` is its partial inverse and also plays the role of
signature verification: it recovers the key the token was signed with. -/

/-- The decoded claim set of a session token: `sub` (absent when the
payload carries no `"sub"` claim), `iat` and `exp` in integer seconds. -/
structure Payload where
  sub : Option PyStr
  iat : Nat
  exp : Nat
deriving DecidableEq, Repr

/-- Escape one character: `'.'` and `'\'` are prefixed with `'\'`. -/
def escCh (c : Char) : PyStr :=
  if c = '.' ∨ c = '\\' then ['\\', c] else [c]

/-- Escape a string so that it contains no unescaped `'.'`. -/
def esc : PyStr → PyStr
  | [] => []
  | c :: cs => escCh c ++ esc cs

/-- Read one escaped field up to the next unescaped `'.'`; returns the
unescaped field and the remainder after the dot, or `none` when no
terminating dot exists. -/
def readField : PyStr → Option (PyStr × PyStr)
  | [] => none
  | c :: cs =>
    if c = '.' then some ([], cs)
    else if c = '\\' then
      match cs with
      | [] => none
      | d :: ds => (readField ds).map (fun p => (d :: p.1, p.2))
    else (readField cs).map (fun p => (c :: p.1, p.2))

theorem readField_cons_plain (c : Char) (t : PyStr) (h1 : c ≠ '.') (h2 : c ≠ '\\') :
    readField (c :: t) = (readField t).map (fun p => (c :: p.1, p.2)) := by
  rw [readField.eq_def]
  simp [h1, h2]

theorem readField_cons_dot (t : PyStr) : readField ('.' :: t) = some ([], t) := by
  rw [readField.eq_def]
  simp

theorem readField_esc : ∀ (s r : PyStr), readField (esc s ++ '.' :: r) = some (s, r) := by
  intro s
  induction s with
  | nil => intro r; simpa [esc] using readField_cons_dot r
  | cons c cs ih =>
    intro r
    by_cases hc : c = '.' ∨ c = '\\'
    · simp only [esc, escCh, if_pos hc, List.cons_append, List.nil_append]
      rw [readField.eq_def]
      simp [ih r]
    · push_neg at hc
      simp only [esc, escCh, if_neg (not_or.mpr ⟨hc.1, hc.2⟩), List.cons_append,
        List.nil_append]
      rw [readField_cons_plain c _ hc.1 hc.2, ih r]
      rfl

theorem esc_eq_self : ∀ s : PyStr, (∀ c ∈ s, c ≠ '.' ∧ c ≠ '\\') → esc s = s := by
  intro s
  induction s with
  | nil => intro _; rfl
  | cons c cs ih =>
    intro h
    have hc := h c (List.mem_cons_self c cs)
    have hcs : ∀ c ∈ cs, c ≠ '.' ∧ c ≠ '\\' := fun d hd => h d (List.mem_cons_of_mem c hd)
    simp [esc, escCh, not_or.mpr ⟨hc.1, hc.2⟩, ih hcs]

/-- The serialised form of an optional `"sub"` claim: `'N'` marks an
absent claim, `'S'` followed by the escaped subject marks a present one. -/
def serSub : Option PyStr → PyStr
  | none => ['N']
  | some s => 'S' :: esc s

/-- Recover the optional `"sub"` claim from an unescaped field. -/
def parseSub : PyStr → Option (Option PyStr)
  | ['N'] => some none
  | 'S' :: rest => some (some rest)
  | _ => none

/-- A field is all-`'I'` (the unary digit used for integer claims). -/
def allI : PyStr → Bool
  | [] => true
  | c :: cs => c = 'I' && allI cs

/-- Recover an integer claim from its unary field. -/
def parseUnary (f : PyStr) : Option Nat :=
  if allI f then some f.length else none

theorem allI_replicate (n : Nat) : allI (List.replicate n 'I') = true := by
  induction n with
  | zero => rfl
  | succ k ih => simp [List.replicate, allI, ih]

theorem parseUnary_replicate (n : Nat) : parseUnary (List.replicate n 'I') = some n := by
  simp [parseUnary, allI_replicate, List.length_replicate]

theorem replicate_noSpecial (n : Nat) :
    ∀ c ∈ List.replicate n 'I', c ≠ '.' ∧ c ≠ '\\' := by
  intro c hc
  have : c = 'I' := List.eq_of_mem_replicate hc
  subst this
  exact ⟨by decide, by decide⟩

/-- Serialise a session token: the signing key, the `sub` claim, and the
unary `iat` and `exp` claims, dot-separated with escaping. -/
def serPayload (key : PyStr) (p : Payload) : PyStr :=
  esc key ++ '.' :: (serSub p.sub ++ '.' ::
    (List.replicate p.iat 'I' ++ '.' :: List.replicate p.exp 'I'))

/-- Parse a token string back into its signing key and payload; `none`
models a string that is not a structurally valid signed JWT. -/
def parseTok (s : PyStr) : Option (PyStr × Payload) :=
  match readField s with
  | none => none
  | some (key, r1) =>
    match readField r1 with
    | none => none
    | some (subF, r2) =>
      match readField r2 with
      | none => none
      | some (iatF, r3) =>
        match parseSub subF, parseUnary iatF, parseUnary r3 with
        | some sub, some iat, some exp => some (key, ⟨sub, iat, exp⟩)
        | _, _, _ => none

theorem readField_serSub (sub : Option PyStr) (r : PyStr) :
    readField (serSub sub ++ '.' :: r) =
      some ((match sub with | none => ['N'] | some s => 'S' :: s), r) := by
  cases sub with
  | none =>
    show readField ('N' :: '.' :: r) = _
    rw [readField_cons_plain 'N' _ (by decide) (by decide), readField_cons_dot]
    rfl
  | some s =>
    show readField ('S' :: (esc s ++ '.' :: r)) = _
    rw [readField_cons_plain 'S' _ (by decide) (by decide), readField_esc]
    rfl

theorem parseSub_serSub (sub : Option PyStr) :
    parseSub (match sub with | none => ['N'] | some s => 'S' :: s) = some sub := by
  cases sub with
  | none => rfl
  | some s => rfl

theorem readField_replicate (n : Nat) (r : PyStr) :
    readField (List.replicate n 'I' ++ '.' :: r) = some (List.replicate n 'I', r) := by
  have h := readField_esc (List.replicate n 'I') r
  rwa [esc_eq_self _ (replicate_noSpecial n)] at h

/-- Round trip: parsing a serialised token recovers the key and payload.
This is the model-level counterpart of "decoding a freshly signed JWT with
the signing key yields the original claims". -/
theorem parseTok_serPayload (key : PyStr) (p : Payload) :
    parseTok (serPayload key p) = some (key, p) := by
  unfold parseTok serPayload
  rw [readField_esc]
  simp only
  rw [readField_serSub]
  simp only
  rw [readField_replicate]
  simp only
  rw [parseSub_serSub, parseUnary_replicate, parseUnary_replicate]

/-! ### PyJWT (`jwt.encode` / `jwt.decode`, HS256)

`jwt.decode` verifies the signature first (a token signed with a wrong key
raises `InvalidTokenError` regardless of its claims), then checks `exp`:
with zero leeway, `ExpiredSignatureError` is raised exactly when
`exp <= now`.  `DecodeError` (unparseable token) is a subclass of
`InvalidTokenError`. -/

/-- PyJWT decode failures relevant to this program:
`ExpiredSignatureError` and the `InvalidTokenError` family. -/
inductive PyJwtError where
  | expiredSignature
  | invalidToken
deriving DecidableEq, Repr

/-- `jwt.encode(payload, key, algorithm="HS256")`. -/
def jwtEncode (payload : Payload) (key : PyStr) : PyStr :=
  serPayload key payload

/-- `jwt.decode(token, key, algorithms=["HS256"])` evaluated at wall-clock
second `now`: parse, check the signing key, then check `exp`. -/
def jwtDecode (token key : PyStr) (now : Nat) : Except PyJwtError Payload :=
  match parseTok token with
  | none => .error .invalidToken
  | some (k, p) =>
    if k = key then
      if p.exp ≤ now then .error .expiredSignature else .ok p
    else .error .invalidToken

/-! ### Python exceptions surfaced by the code under verification -/

/-- The exceptions the embedded code can raise: FastAPI `HTTPException`
(status code and detail), Python `KeyError` (an uncaught dictionary miss),
a `fastapi_csrf_protect` `CsrfProtectError`, and passlib's
`UnknownHashError` (a `ValueError`). -/
inductive Failure where
  | http (status : Nat) (detail : String)
  | keyError (key : String)
  | csrf (detail : String)
  | valueError (detail : String)
deriving DecidableEq, Repr

/-! ### passlib (`CryptContext(schemes=["bcrypt"])`)

`CryptContext.hash` produces a modular-crypt bcrypt blob embedding the
cost and a fresh salt; `CryptContext.verify` identifies the hash among the
configured schemes, recomputes and compares — and raises
`UnknownHashError` (a `ValueError`, "hash could not be identified") when
the blob is not a recognisable hash of any configured scheme. -/

/-- A password-hash blob: either a structurally valid bcrypt record
(cost, salt, digest) or a malformed string passlib cannot identify. -/
inductive HashBlob where
  | bcrypt (cost : Nat) (salt : PyStr) (digest : PyStr)
  | malformed (s : PyStr)
deriving DecidableEq, Repr

/-- The bcrypt key-derivation kept abstract but concrete: the claims under
verification depend only on it being a deterministic function of the
password, cost and salt. -/
def bcryptDigest (password : PyStr) (cost : Nat) (salt : PyStr) : PyStr :=
  password ++ salt ++ List.replicate cost 'B'

/-- `CryptContext.verify(secret, hash)`: a boolean for identifiable
bcrypt blobs, `UnknownHashError` for malformed ones. -/
def cryptContextVerify (plain : PyStr) (blob : HashBlob) : Except Failure Bool :=
  match blob with
  | .bcrypt cost salt digest => .ok (decide (bcryptDigest plain cost salt = digest))
  | .malformed _ => .error (.valueError "hash could not be identified")

/-! ### `auth_utils.AuthJwtCsrf`

The secret key (`JWT_KEY` from the environment) is passed explicitly.
Wall-clock time (`datetime.utcnow()`) is passed explicitly in integer
seconds.  Each method is a function of these and the request. -/

namespace AuthJwtCsrf

/-- `AuthJwtCsrf.jwt_token_cookie_key = "access_token"`. -/
def jwt_token_cookie_key : String := "access_token"

/-- The incoming request, as the embedded code reads it: the
`"access_token"` cookie and the CSRF header, each possibly absent. -/
structure Request where
  cookieAccessToken : Option PyStr
  csrfHeader : Option PyStr

/-- `verify_password`: delegates to `CryptContext.verify`. -/
def verify_password (plain_pw : PyStr) (hashed_pw : HashBlob) : Except Failure Bool :=
  cryptContextVerify plain_pw hashed_pw

/-- `generate_hashed_pw`: delegates to `CryptContext.hash` with the
fresh salt passed explicitly. -/
def generate_hashed_pw (password : PyStr) (cost : Nat) (salt : PyStr) : HashBlob :=
  .bcrypt cost salt (bcryptDigest password cost salt)

/-- `encode_jwt`: payload `{sub: email, iat: now, exp: now + 5 minutes}`
signed with the secret key.  `timedelta(days=0, minutes=5)` is 300
seconds. -/
def encode_jwt (key : PyStr) (email : PyStr) (now : Nat) : PyStr :=
  jwtEncode ⟨some email, now, now + 300⟩ key

/-- `decode_jwt`: `jwt.decode` then `payload["sub"]`.
`ExpiredSignatureError` is mapped to HTTP 401 "JWT token has expired" and
`InvalidTokenError` to HTTP 401 "Invalid JWT token"; a successfully
decoded payload without a `"sub"` claim raises `KeyError`, which neither
`except` clause catches. -/
def decode_jwt (key : PyStr) (token : PyStr) (now : Nat) : Except Failure PyStr :=
  match jwtDecode token key now with
  | .ok p =>
    match p.sub with
    | some s => .ok s
    | none => .error (.keyError "sub")
  | .error .expiredSignature => .error (.http 401 "JWT token has expired")
  | .error .invalidToken => .error (.http 401 "Invalid JWT token")

/-- `verify_jwt`: read the `"access_token"` cookie (HTTP 404 when absent),
split its value on the first space with `str.partition`, and decode the
remainder. -/
def verify_jwt (key : PyStr) (req : Request) (now : Nat) : Except Failure PyStr :=
  match req.cookieAccessToken with
  | none => .error (.http 404 "No JWT exist: may not set yet or deleted.")
  | some token => decode_jwt key (pyPartition token ' ').2.2 now

/-- `verify_update_jwt`: verify, then issue a fresh token for the decoded
subject at the current moment. -/
def verify_update_jwt (key : PyStr) (req : Request) (now : Nat) :
    Except Failure (PyStr × PyStr) :=
  match verify_jwt key req now with
  | .error e => .error e
  | .ok subject => .ok (encode_jwt key subject now, subject)

/-- `fastapi_csrf_protect.CsrfProtect.get_csrf_from_headers`: raises a
`CsrfProtectError` when the CSRF header is absent. -/
def get_csrf_from_headers (h : Option PyStr) : Except Failure PyStr :=
  match h with
  | none => .error (.csrf "Bad headers")
  | some t => .ok t

/-- `fastapi_csrf_protect.CsrfProtect.validate_csrf`: raises a
`CsrfProtectError` when the header token does not validate.  The signed
double-submit check itself is library code, abstracted as the predicate
`csrfOk`. -/
def validate_csrf (csrfOk : PyStr → Bool) (t : PyStr) : Except Failure Unit :=
  if csrfOk t then .ok () else .error (.csrf "The CSRF token is invalid")

/-- `verify_csrf_update_jwt`: CSRF header extraction, then CSRF
validation, then `verify_update_jwt`; returns only the new token. -/
def verify_csrf_update_jwt (key : PyStr) (csrfOk : PyStr → Bool) (req : Request)
    (now : Nat) : Except Failure PyStr :=
  match get_csrf_from_headers req.csrfHeader with
  | .error e => .error e
  | .ok csrf_token =>
    match validate_csrf csrfOk csrf_token with
    | .error e => .error e
    | .ok _ =>
      match verify_update_jwt key req now with
      | .error e => .error e
      | .ok (new_token, _) => .ok new_token

end AuthJwtCsrf

/-! ### Routers (`route_todo.py`, `route_auth.py`)

Each handler receives a fresh starlette `Response`; `set_cookie` records a
`Set-Cookie` entry on it.  A Python `raise` is `Except.error`: when an
`HTTPException` (or any exception) propagates out of a FastAPI endpoint,
the framework's exception handler builds a fresh response, so cookies set
on the injected `Response` parameter are not delivered to the client.
`deliveredCookies` makes that explicit.  The MongoDB operations
(`db_create_todo`, `db_update_todo`, `db_delete_todo`) are external I/O;
their results (`dict` on success, `False` on failure, per `database.py`)
are passed in as parameters. -/

/-- A serialised todo document, as produced by `todo_serializer`. -/
abbrev TodoDict := List (String × PyStr)

/-- The mutable state of the injected starlette `Response`. -/
structure ResponseState where
  cookies : List (String × PyStr)
  statusCode : Option Nat
deriving DecidableEq, Repr

/-- The fresh `Response` a handler receives. -/
def ResponseState.init : ResponseState := ⟨[], none⟩

/-- `response.set_cookie(key=..., value=...)`: append a `Set-Cookie`
entry (attributes `httponly`/`secure`/`samesite` are fixed constants and
not modelled). -/
def ResponseState.set_cookie (st : ResponseState) (k : String) (v : PyStr) :
    ResponseState :=
  { st with cookies := st.cookies ++ [(k, v)] }

/-- The literal cookie value `f"Bearer {new_token}"`. -/
def bearer (token : PyStr) : PyStr :=
  'B' :: 'e' :: 'a' :: 'r' :: 'e' :: 'r' :: ' ' :: token

/-- The `Set-Cookie` entries of the response the client receives: the
handler's response state on normal return; none from the injected
`Response` when an exception propagates (FastAPI's exception handler
builds the error response afresh). -/
def deliveredCookies {α : Type} : Except Failure (ResponseState × α) → List (String × PyStr)
  | .ok (st, _) => st.cookies
  | .error _ => []

namespace RouteTodo

open AuthJwtCsrf

/-- `POST /api/todo` (`create_todo`): CSRF + JWT verification with
rotation, the database insert, unconditional `set_cookie` with the rotated
token, then HTTP 201 with the created document if the insert returned a
`dict`, else HTTP 404 "Create task failed.". -/
def create_todo (key : PyStr) (csrfOk : PyStr → Bool) (req : Request) (now : Nat)
    (dbRes : Option TodoDict) : Except Failure (ResponseState × TodoDict) :=
  match verify_csrf_update_jwt key csrfOk req now with
  | .error e => .error e
  | .ok new_token =>
    let res := dbRes
    let resp := ResponseState.init.set_cookie jwt_token_cookie_key (bearer new_token)
    match res with
    | some todo => .ok ({ resp with statusCode := some 201 }, todo)
    | none => .error (.http 404 "Create task failed.")

/-- `PUT /api/todo/{id}` (`update_todo`): same shape as `create_todo`
with the database update and HTTP 404 "Update task failed." on a `False`
result. -/
def update_todo (key : PyStr) (csrfOk : PyStr → Bool) (req : Request) (now : Nat)
    (dbRes : Option TodoDict) : Except Failure (ResponseState × TodoDict) :=
  match verify_csrf_update_jwt key csrfOk req now with
  | .error e => .error e
  | .ok new_token =>
    let res := dbRes
    let resp := ResponseState.init.set_cookie jwt_token_cookie_key (bearer new_token)
    match res with
    | some todo => .ok (resp, todo)
    | none => .error (.http 404 "Update task failed.")

/-- `DELETE /api/todo/{id}` (`delete_todo`): the database delete returns a
boolean; on `True` the success message is returned, else HTTP 404
"Delete task failed.". -/
def delete_todo (key : PyStr) (csrfOk : PyStr → Bool) (req : Request) (now : Nat)
    (dbOk : Bool) : Except Failure (ResponseState × String) :=
  match verify_csrf_update_jwt key csrfOk req now with
  | .error e => .error e
  | .ok new_token =>
    let res := dbOk
    let resp := ResponseState.init.set_cookie jwt_token_cookie_key (bearer new_token)
    if res then .ok (resp, "Successfully deleted.")
    else .error (.http 404 "Delete task failed.")

end RouteTodo

namespace RouteAuth

open AuthJwtCsrf

/-- `GET /api/user` (`get_user_refresh_jwt`): JWT verification with
rotation, then `set_cookie` with the rotated token and the subject's user
info. -/
def get_user_refresh_jwt (key : PyStr) (req : Request) (now : Nat) :
    Except Failure (ResponseState × PyStr) :=
  match verify_update_jwt key req now with
  | .error e => .error e
  | .ok (new_token, subject) =>
    .ok (ResponseState.init.set_cookie jwt_token_cookie_key (bearer new_token), subject)

end RouteAuth

/-! ### Helper lemmas shared by the claim theorems -/

theorem parseTok_encode_jwt (key s : PyStr) (now : Nat) :
    parseTok (AuthJwtCsrf.encode_jwt key s now) = some (key, ⟨some s, now, now + 300⟩) :=
  parseTok_serPayload key ⟨some s, now, now + 300⟩

theorem decode_encode_of_lt (key s : PyStr) (now t : Nat) (h : t < now + 300) :
    AuthJwtCsrf.decode_jwt key (AuthJwtCsrf.encode_jwt key s now) t = .ok s := by
  unfold AuthJwtCsrf.decode_jwt jwtDecode
  rw [show AuthJwtCsrf.encode_jwt key s now = serPayload key ⟨some s, now, now + 300⟩ from rfl,
    parseTok_serPayload]
  simp [Nat.not_le.mpr h]

theorem decode_jwt_ne_http404 (key tok : PyStr) (now : Nat) (d : String) :
    AuthJwtCsrf.decode_jwt key tok now ≠ .error (.http 404 d) := by
  unfold AuthJwtCsrf.decode_jwt
  cases h : jwtDecode tok key now with
  | ok p => cases hs : p.sub <;> simp [hs]
  | error e => cases e <;> simp

/-- `jwtDecode` spelled out on a parsed token. -/
theorem jwtDecode_of_parse (tok key : PyStr) (now : Nat) (k : PyStr) (p : Payload)
    (h : parseTok tok = some (k, p)) :
    jwtDecode tok key now =
      if k = key then
        if p.exp ≤ now then .error .expiredSignature else .ok p
      else .error .invalidToken := by
  unfold jwtDecode
  rw [h]

theorem verify_csrf_ok_inv (key : PyStr) (csrfOk : PyStr → Bool)
    (req : AuthJwtCsrf.Request) (now : Nat) (tk : PyStr)
    (h : AuthJwtCsrf.verify_csrf_update_jwt key csrfOk req now = .ok tk) :
    ∃ s, AuthJwtCsrf.verify_jwt key req now = .ok s ∧
      tk = AuthJwtCsrf.encode_jwt key s now := by
  unfold AuthJwtCsrf.verify_csrf_update_jwt at h
  cases hh : AuthJwtCsrf.get_csrf_from_headers req.csrfHeader with
  | error e => rw [hh] at h; exact absurd h (by simp)
  | ok t =>
    rw [hh] at h
    dsimp only at h
    cases hv : AuthJwtCsrf.validate_csrf csrfOk t with
    | error e => rw [hv] at h; exact absurd h (by simp)
    | ok u =>
      rw [hv] at h
      dsimp only at h
      unfold AuthJwtCsrf.verify_update_jwt at h
      cases hj : AuthJwtCsrf.verify_jwt key req now with
      | error e => rw [hj] at h; exact absurd h (by simp)
      | ok s =>
        rw [hj] at h
        simp only [Except.ok.injEq] at h
        exact ⟨s, rfl, h.symm⟩

/-! ### Claim theorems -/

/-- C2: for every subject `s`, decoding the token produced by encoding
`s`, at any moment strictly before the 5-minute TTL elapses (in
particular immediately after issuance), succeeds and returns `s`. -/
theorem claim_C2_jwt_roundtrip (key s : PyStr) (now t : Nat) (h : t < now + 300) :
    AuthJwtCsrf.decode_jwt key (AuthJwtCsrf.encode_jwt key s now) t = .ok s :=
  decode_encode_of_lt key s now t h

/-- Witness for C2: subject `"a"`, key `"k"`, issued at second 0 and
decoded at second 0. -/
theorem claim_C2_jwt_roundtrip_witness :
    AuthJwtCsrf.decode_jwt ['k'] (AuthJwtCsrf.encode_jwt ['k'] ['a'] 0) 0 = .ok ['a'] :=
  claim_C2_jwt_roundtrip ['k'] ['a'] 0 0 (by decide)

/-- C3 counterexample: the token `serPayload ['k'] ⟨none, 0, 1⟩` is signed
with the right key and unexpired at second 0, but its payload carries no
`"sub"` claim — a structurally wrong payload for this service.  `decode_jwt`
fails on it with an uncaught Python `KeyError("sub")`, not with the HTTP
401 "Invalid JWT token" (`TokenInvalid`) error the claim promises for
every structurally wrong payload. -/
theorem claim_C3_counterexample :
    AuthJwtCsrf.decode_jwt ['k'] (serPayload ['k'] ⟨none, 0, 1⟩) 0
        = .error (.keyError "sub") ∧
      AuthJwtCsrf.decode_jwt ['k'] (serPayload ['k'] ⟨none, 0, 1⟩) 0
        ≠ .error (.http 401 "Invalid JWT token") ∧
      AuthJwtCsrf.decode_jwt ['k'] (serPayload ['k'] ⟨none, 0, 1⟩) 0
        ≠ .error (.http 401 "JWT token has expired") := by
  refine ⟨?_, ?_, ?_⟩ <;> decide

/-- C3 (amended): a token whose signature verifies but whose expiry has
passed fails with the distinct HTTP 401 "JWT token has expired"
(`TokenExpired`); a token that does not parse as a JWT, or whose
signature does not verify, fails with HTTP 401 "Invalid JWT token"
(`TokenInvalid`); but a validly signed, unexpired token whose payload
lacks the `"sub"` claim fails with an uncaught `KeyError`, not with
`TokenInvalid`. -/
theorem claim_C3_decode_error_taxonomy (key tok : PyStr) (now : Nat) :
    (∀ p : Payload, parseTok tok = some (key, p) → p.exp ≤ now →
      AuthJwtCsrf.decode_jwt key tok now = .error (.http 401 "JWT token has expired")) ∧
    (parseTok tok = none →
      AuthJwtCsrf.decode_jwt key tok now = .error (.http 401 "Invalid JWT token")) ∧
    (∀ (k : PyStr) (p : Payload), parseTok tok = some (k, p) → k ≠ key →
      AuthJwtCsrf.decode_jwt key tok now = .error (.http 401 "Invalid JWT token")) ∧
    (∀ p : Payload, parseTok tok = some (key, p) → now < p.exp → p.sub = none →
      AuthJwtCsrf.decode_jwt key tok now = .error (.keyError "sub")) := by
  refine ⟨?_, ?_, ?_, ?_⟩
  · intro p hp hexp
    unfold AuthJwtCsrf.decode_jwt
    rw [jwtDecode_of_parse tok key now key p hp]
    simp [hexp]
  · intro hp
    unfold AuthJwtCsrf.decode_jwt jwtDecode
    rw [hp]
  · intro k p hp hk
    unfold AuthJwtCsrf.decode_jwt
    rw [jwtDecode_of_parse tok key now k p hp]
    simp [hk]
  · intro p hp hexp hsub
    unfold AuthJwtCsrf.decode_jwt
    rw [jwtDecode_of_parse tok key now key p hp]
    simp [Nat.not_le.mpr hexp, hsub]

/-- Witness for C3 (amended): the expired branch on a token with
`exp = 1` decoded at second 5, the unparseable branch on the empty
string, the wrong-key branch on a token signed with `"w"` decoded with
`"k"`, and the missing-`sub` branch on the counterexample token. -/
theorem claim_C3_decode_error_taxonomy_witness :
    AuthJwtCsrf.decode_jwt ['k'] (serPayload ['k'] ⟨some ['a'], 0, 1⟩) 5
        = .error (.http 401 "JWT token has expired") ∧
      AuthJwtCsrf.decode_jwt ['k'] [] 0 = .error (.http 401 "Invalid JWT token") ∧
      AuthJwtCsrf.decode_jwt ['k'] (serPayload ['w'] ⟨some ['a'], 0, 9⟩) 0
        = .error (.http 401 "Invalid JWT token") ∧
      AuthJwtCsrf.decode_jwt ['k'] (serPayload ['k'] ⟨none, 0, 1⟩) 0
        = .error (.keyError "sub") :=
  ⟨(claim_C3_decode_error_taxonomy ['k'] (serPayload ['k'] ⟨some ['a'], 0, 1⟩) 5).1
      ⟨some ['a'], 0, 1⟩ (by decide) (by decide),
   (claim_C3_decode_error_taxonomy ['k'] [] 0).2.1 (by decide),
   (claim_C3_decode_error_taxonomy ['k'] (serPayload ['w'] ⟨some ['a'], 0, 9⟩) 0).2.2.1
      ['w'] ⟨some ['a'], 0, 9⟩ (by decide) (by decide),
   (claim_C3_decode_error_taxonomy ['k'] (serPayload ['k'] ⟨none, 0, 1⟩) 0).2.2.2
      ⟨none, 0, 1⟩ (by decide) (by decide) (by decide)⟩

/-- C4: `verify_csrf_update_jwt` validates the CSRF header before any
session logic.  A request with a missing CSRF header fails with the CSRF
error; one with an invalid CSRF header likewise; and on either failure
the outcome is identical for any two requests sharing that CSRF header —
regardless of their session cookies and of the clock — so the session
cookie is never read, no token is decoded, and no rotated replacement is
issued. -/
theorem claim_C4_csrf_checked_first (key : PyStr) (csrfOk : PyStr → Bool)
    (req req' : AuthJwtCsrf.Request) (now now' : Nat) :
    (req.csrfHeader = none →
      AuthJwtCsrf.verify_csrf_update_jwt key csrfOk req now = .error (.csrf "Bad headers")) ∧
    (∀ t, req.csrfHeader = some t → csrfOk t = false →
      AuthJwtCsrf.verify_csrf_update_jwt key csrfOk req now
        = .error (.csrf "The CSRF token is invalid")) ∧
    (req'.csrfHeader = req.csrfHeader →
      (req.csrfHeader = none ∨ ∃ t, req.csrfHeader = some t ∧ csrfOk t = false) →
      AuthJwtCsrf.verify_csrf_update_jwt key csrfOk req now
        = AuthJwtCsrf.verify_csrf_update_jwt key csrfOk req' now') := by
  refine ⟨?_, ?_, ?_⟩
  · intro h
    unfold AuthJwtCsrf.verify_csrf_update_jwt AuthJwtCsrf.get_csrf_from_headers
    rw [h]
  · intro t h hbad
    unfold AuthJwtCsrf.verify_csrf_update_jwt AuthJwtCsrf.get_csrf_from_headers
    rw [h]
    dsimp only
    unfold AuthJwtCsrf.validate_csrf
    rw [hbad]
    rfl
  · intro hsame hfail
    unfold AuthJwtCsrf.verify_csrf_update_jwt AuthJwtCsrf.get_csrf_from_headers
    rw [hsame]
    rcases hfail with h | ⟨t, ht, hbad⟩
    · rw [h]
    · rw [ht]
      dsimp only
      unfold AuthJwtCsrf.validate_csrf
      rw [hbad]
      rfl

/-- Witness for C4: a request carrying a valid session cookie but no CSRF
header fails with the CSRF error and yields the same outcome as a request
with a different (absent) cookie at a different time; a request with an
invalid CSRF header fails the same way. -/
theorem claim_C4_csrf_checked_first_witness :
    AuthJwtCsrf.verify_csrf_update_jwt ['k'] (fun _ => false)
        ⟨some (bearer (AuthJwtCsrf.encode_jwt ['k'] ['a'] 0)), none⟩ 0
      = .error (.csrf "Bad headers") ∧
    AuthJwtCsrf.verify_csrf_update_jwt ['k'] (fun _ => false)
        ⟨some (bearer (AuthJwtCsrf.encode_jwt ['k'] ['a'] 0)), some ['c']⟩ 0
      = .error (.csrf "The CSRF token is invalid") ∧
    AuthJwtCsrf.verify_csrf_update_jwt ['k'] (fun _ => false)
        ⟨some (bearer (AuthJwtCsrf.encode_jwt ['k'] ['a'] 0)), none⟩ 0
      = AuthJwtCsrf.verify_csrf_update_jwt ['k'] (fun _ => false) ⟨none, none⟩ 77 :=
  ⟨(claim_C4_csrf_checked_first ['k'] (fun _ => false)
      ⟨some (bearer (AuthJwtCsrf.encode_jwt ['k'] ['a'] 0)), none⟩
      ⟨none, none⟩ 0 77).1 rfl,
   (claim_C4_csrf_checked_first ['k'] (fun _ => false)
      ⟨some (bearer (AuthJwtCsrf.encode_jwt ['k'] ['a'] 0)), some ['c']⟩
      ⟨none, none⟩ 0 77).2.1 ['c'] rfl rfl,
   (claim_C4_csrf_checked_first ['k'] (fun _ => false)
      ⟨some (bearer (AuthJwtCsrf.encode_jwt ['k'] ['a'] 0)), none⟩
      ⟨none, none⟩ 0 77).2.2 rfl (Or.inl rfl)⟩

/-- C5: `verify_jwt` fails with HTTP 404 "No JWT exist: may not set yet
or deleted." (`SessionMissing`) exactly when the `"access_token"` cookie
is absent — an error distinct from the 401 token errors — and otherwise
splits the cookie value on the first space and decodes the remainder. -/
theorem claim_C5_session_missing_iff_no_cookie (key : PyStr)
    (req : AuthJwtCsrf.Request) (now : Nat) :
    (AuthJwtCsrf.verify_jwt key req now
        = .error (.http 404 "No JWT exist: may not set yet or deleted.")
      ↔ req.cookieAccessToken = none) ∧
    (∀ v, req.cookieAccessToken = some v →
      AuthJwtCsrf.verify_jwt key req now
        = AuthJwtCsrf.decode_jwt key (pyPartition v ' ').2.2 now) := by
  constructor
  · constructor
    · intro h
      cases hc : req.cookieAccessToken with
      | none => rfl
      | some v =>
        unfold AuthJwtCsrf.verify_jwt at h
        rw [hc] at h
        exact absurd h (decode_jwt_ne_http404 key (pyPartition v ' ').2.2 now _)
    · intro h
      unfold AuthJwtCsrf.verify_jwt
      rw [h]
  · intro v h
    unfold AuthJwtCsrf.verify_jwt
    rw [h]

/-- Witness for C5: an absent cookie yields the 404 error; a cookie
`"Bearer <token>"` with a fresh token for subject `"a"` is split on the
first space and the remainder decodes to `"a"`. -/
theorem claim_C5_session_missing_iff_no_cookie_witness :
    AuthJwtCsrf.verify_jwt ['k'] ⟨none, none⟩ 0
        = .error (.http 404 "No JWT exist: may not set yet or deleted.") ∧
      AuthJwtCsrf.verify_jwt ['k'] ⟨some (bearer (AuthJwtCsrf.encode_jwt ['k'] ['a'] 0)), none⟩ 0
        = AuthJwtCsrf.decode_jwt ['k']
            (pyPartition (bearer (AuthJwtCsrf.encode_jwt ['k'] ['a'] 0)) ' ').2.2 0 :=
  ⟨(claim_C5_session_missing_iff_no_cookie ['k'] ⟨none, none⟩ 0).1.mpr rfl,
   (claim_C5_session_missing_iff_no_cookie ['k']
      ⟨some (bearer (AuthJwtCsrf.encode_jwt ['k'] ['a'] 0)), none⟩ 0).2
      (bearer (AuthJwtCsrf.encode_jwt ['k'] ['a'] 0)) rfl⟩

/-- C10: cookie extraction partitions on the first space, so any cookie
value with a space has the substring after the first space decoded,
whatever the prefix is — "Bearer" is not checked — while a cookie value
with no space at all has the empty string passed to `decode_jwt`, which
fails with HTTP 401 "Invalid JWT token" (`TokenInvalid`), not with the
404 `SessionMissing` error. -/
theorem claim_C10_space_split_any_marker (key : PyStr) (req : AuthJwtCsrf.Request)
    (now : Nat) (v : PyStr) :
    (∀ p r : PyStr, req.cookieAccessToken = some (p ++ ' ' :: r) → ' ' ∉ p →
      AuthJwtCsrf.verify_jwt key req now = AuthJwtCsrf.decode_jwt key r now) ∧
    (req.cookieAccessToken = some v → ' ' ∉ v →
      AuthJwtCsrf.verify_jwt key req now = AuthJwtCsrf.decode_jwt key [] now ∧
      AuthJwtCsrf.verify_jwt key req now = .error (.http 401 "Invalid JWT token")) := by
  constructor
  · intro p r hc hp
    unfold AuthJwtCsrf.verify_jwt
    rw [hc]
    dsimp only
    rw [pyPartition_append ' ' p r hp]
  · intro hc hv
    unfold AuthJwtCsrf.verify_jwt
    rw [hc]
    dsimp only
    rw [pyPartition_not_mem ' ' v hv]
    exact ⟨rfl, rfl⟩

/-- Witness for C10: the prefix `"Tok"` (not `"Bearer"`) before a fresh
token for `"a"` still decodes to `"a"`; the spaceless cookie value
`"xyz"` fails with the 401 invalid-token error. -/
theorem claim_C10_space_split_any_marker_witness :
    AuthJwtCsrf.verify_jwt ['k']
        ⟨some (['T', 'o', 'k'] ++ ' ' :: AuthJwtCsrf.encode_jwt ['k'] ['a'] 0), none⟩ 0
      = AuthJwtCsrf.decode_jwt ['k'] (AuthJwtCsrf.encode_jwt ['k'] ['a'] 0) 0 ∧
    AuthJwtCsrf.verify_jwt ['k'] ⟨some ['x', 'y', 'z'], none⟩ 0
      = .error (.http 401 "Invalid JWT token") :=
  ⟨(claim_C10_space_split_any_marker ['k']
      ⟨some (['T', 'o', 'k'] ++ ' ' :: AuthJwtCsrf.encode_jwt ['k'] ['a'] 0), none⟩ 0
      []).1 ['T', 'o', 'k'] (AuthJwtCsrf.encode_jwt ['k'] ['a'] 0) rfl (by decide),
   ((claim_C10_space_split_any_marker ['k'] ⟨some ['x', 'y', 'z'], none⟩ 0
      ['x', 'y', 'z']).2 rfl (by decide)).2⟩

/-- C6: a token produced by issuance carries `exp = now + 300` (the fixed
5-minute TTL from the moment of issuance), and a token produced by
rotation carries `exp = now + 300` computed from the moment of rotation —
whatever the original token's issue time was — so sessions are
sliding-window. -/
theorem claim_C6_sliding_window_ttl (key s : PyStr) (now : Nat)
    (req : AuthJwtCsrf.Request) (tok subj : PyStr) :
    parseTok (AuthJwtCsrf.encode_jwt key s now) = some (key, ⟨some s, now, now + 300⟩) ∧
    (AuthJwtCsrf.verify_update_jwt key req now = .ok (tok, subj) →
      parseTok tok = some (key, ⟨some subj, now, now + 300⟩)) := by
  constructor
  · exact parseTok_encode_jwt key s now
  · intro h
    unfold AuthJwtCsrf.verify_update_jwt at h
    cases hj : AuthJwtCsrf.verify_jwt key req now with
    | error e => rw [hj] at h; exact absurd h (by simp)
    | ok s2 =>
      rw [hj] at h
      simp only [Except.ok.injEq, Prod.mk.injEq] at h
      rw [← h.1, ← h.2]
      exact parseTok_encode_jwt key s2 now

set_option maxRecDepth 10000 in
/-- Witness for C6: a token issued at second 0 for subject `"a"` and
rotated at second 7 yields a replacement with `exp = 307` — five minutes
from the rotation moment, not from the original issue time. -/
theorem claim_C6_sliding_window_ttl_witness :
    parseTok (AuthJwtCsrf.encode_jwt ['k'] ['a'] 7)
        = some (['k'], ⟨some ['a'], 7, 307⟩) ∧
      parseTok (AuthJwtCsrf.encode_jwt ['k'] ['a'] 7)
        = some (['k'], ⟨some ['a'], 7, 7 + 300⟩) :=
  ⟨(claim_C6_sliding_window_ttl ['k'] ['a'] 7
      ⟨some (bearer (AuthJwtCsrf.encode_jwt ['k'] ['a'] 0)), none⟩
      (AuthJwtCsrf.encode_jwt ['k'] ['a'] 7) ['a']).1,
   (claim_C6_sliding_window_ttl ['k'] ['a'] 7
      ⟨some (bearer (AuthJwtCsrf.encode_jwt ['k'] ['a'] 0)), none⟩
      (AuthJwtCsrf.encode_jwt ['k'] ['a'] 7) ['a']).2 (by decide)⟩

set_option maxRecDepth 10000 in
/-- C7 counterexample: the token `t1 = encode_jwt "k" "a" 5` placed in a
`"Bearer "` cookie and rotated by `verify_update_jwt` at the very second
of its issuance (in particular within the same millisecond) yields the
replacement `t2 = encode_jwt "k" "a" 5 = t1` — PyJWT serialises `iat` and
`exp` at whole-second granularity and HS256 signing is deterministic, so
the replacement is the identical string, not a different one as the claim
requires. -/
theorem claim_C7_counterexample :
    AuthJwtCsrf.verify_update_jwt ['k']
        ⟨some (bearer (AuthJwtCsrf.encode_jwt ['k'] ['a'] 5)), none⟩ 5
      = .ok (AuthJwtCsrf.encode_jwt ['k'] ['a'] 5, ['a']) := by
  decide

/-- C7 (amended): when rotation succeeds, the replacement `t2` decodes to
the same subject as the input token `t1`, and `t2` differs from `t1` as a
string whenever `t1`'s issue second differs from the rotation second —
but rotation within the same second as issuance reproduces `t1`
identically, since timestamps are serialised at whole-second
granularity. -/
theorem claim_C7_rotation_freshness (key : PyStr) (req : AuthJwtCsrf.Request)
    (now : Nat) (t2 s v : PyStr) (p : Payload)
    (h : AuthJwtCsrf.verify_update_jwt key req now = .ok (t2, s))
    (hc : req.cookieAccessToken = some v)
    (hp : parseTok (pyPartition v ' ').2.2 = some (key, p)) :
    AuthJwtCsrf.decode_jwt key t2 now = .ok s ∧
    AuthJwtCsrf.decode_jwt key (pyPartition v ' ').2.2 now = .ok s ∧
    (p.iat ≠ now → t2 ≠ (pyPartition v ' ').2.2) := by
  unfold AuthJwtCsrf.verify_update_jwt at h
  cases hj : AuthJwtCsrf.verify_jwt key req now with
  | error e => rw [hj] at h; exact absurd h (by simp)
  | ok s2 =>
    rw [hj] at h
    simp only [Except.ok.injEq, Prod.mk.injEq] at h
    obtain ⟨ht2, hs⟩ := h
    rw [← hs]
    have hdec1 : AuthJwtCsrf.decode_jwt key (pyPartition v ' ').2.2 now = .ok s2 := by
      unfold AuthJwtCsrf.verify_jwt at hj
      rw [hc] at hj
      exact hj
    refine ⟨?_, hdec1, ?_⟩
    · rw [← ht2]
      exact decode_encode_of_lt key s2 now now (Nat.lt_add_of_pos_right (by norm_num))
    · intro hiat heq
      rw [heq] at ht2
      have hpt : parseTok (pyPartition v ' ').2.2 = some (key, ⟨some s2, now, now + 300⟩) := by
        rw [← ht2]
        exact parseTok_encode_jwt key s2 now
      rw [hp] at hpt
      simp only [Option.some.injEq, Prod.mk.injEq] at hpt
      exact hiat (by rw [hpt.2])

set_option maxRecDepth 10000 in
/-- Witness for C7 (amended): a token issued at second 0 rotated at
second 3 — both decode to `"a"` and the replacement differs from the
input as a string. -/
theorem claim_C7_rotation_freshness_witness :
    AuthJwtCsrf.decode_jwt ['k'] (AuthJwtCsrf.encode_jwt ['k'] ['a'] 3) 3 = .ok ['a'] ∧
    AuthJwtCsrf.decode_jwt ['k']
        (pyPartition (bearer (AuthJwtCsrf.encode_jwt ['k'] ['a'] 0)) ' ').2.2 3 = .ok ['a'] ∧
    ((⟨some ['a'], 0, 300⟩ : Payload).iat ≠ 3 →
      AuthJwtCsrf.encode_jwt ['k'] ['a'] 3
        ≠ (pyPartition (bearer (AuthJwtCsrf.encode_jwt ['k'] ['a'] 0)) ' ').2.2) :=
  claim_C7_rotation_freshness ['k']
    ⟨some (bearer (AuthJwtCsrf.encode_jwt ['k'] ['a'] 0)), none⟩ 3
    (AuthJwtCsrf.encode_jwt ['k'] ['a'] 3) ['a']
    (bearer (AuthJwtCsrf.encode_jwt ['k'] ['a'] 0)) ⟨some ['a'], 0, 300⟩
    (by decide) rfl (by decide)

/-- C8 counterexample: `verify_password` on the malformed blob `"x"` —
not a recognisable bcrypt hash — raises passlib's `UnknownHashError`
(a `ValueError`) instead of returning `false`, so password verification
does not "return a boolean and never raise" on every blob. -/
theorem claim_C8_counterexample :
    AuthJwtCsrf.verify_password ['p'] (.malformed ['x'])
        = .error (.valueError "hash could not be identified") ∧
      ∀ b : Bool, AuthJwtCsrf.verify_password ['p'] (.malformed ['x']) ≠ .ok b := by
  refine ⟨rfl, ?_⟩
  intro b
  cases b <;> decide

/-- C8 (amended): for every password and every structurally valid bcrypt
blob, `verify_password` returns a boolean — `false` on any mismatch —
but for a malformed blob passlib cannot identify it raises
`UnknownHashError` rather than returning `false`. -/
theorem claim_C8_verify_password_total_on_wellformed (pw : PyStr) (cost : Nat)
    (salt digest m : PyStr) :
    AuthJwtCsrf.verify_password pw (.bcrypt cost salt digest)
        = .ok (decide (bcryptDigest pw cost salt = digest)) ∧
    (bcryptDigest pw cost salt ≠ digest →
      AuthJwtCsrf.verify_password pw (.bcrypt cost salt digest) = .ok false) ∧
    AuthJwtCsrf.verify_password pw (.malformed m)
        = .error (.valueError "hash could not be identified") := by
  refine ⟨rfl, ?_, rfl⟩
  intro h
  unfold AuthJwtCsrf.verify_password cryptContextVerify
  simp [h]

/-- Witness for C8 (amended): password `"p"` against a bcrypt blob whose
digest is for password `"q"` — a mismatch — returns `false`. -/
theorem claim_C8_verify_password_total_on_wellformed_witness :
    AuthJwtCsrf.verify_password ['p'] (.bcrypt 1 ['s'] (bcryptDigest ['q'] 1 ['s']))
        = .ok false :=
  (claim_C8_verify_password_total_on_wellformed ['p'] 1 ['s']
    (bcryptDigest ['q'] 1 ['s']) ['x']).2.1 (by decide)

/-- C9: on `GET /api/user` with no session cookie, the handler fails with
HTTP 404 "No JWT exist: may not set yet or deleted." (`SessionMissing`)
before reaching `set_cookie`, and the delivered error response carries no
`Set-Cookie` entry of any kind. -/
theorem claim_C9_get_user_no_cookie (key : PyStr) (req : AuthJwtCsrf.Request)
    (now : Nat) (h : req.cookieAccessToken = none) :
    RouteAuth.get_user_refresh_jwt key req now
        = .error (.http 404 "No JWT exist: may not set yet or deleted.") ∧
      deliveredCookies (RouteAuth.get_user_refresh_jwt key req now) = [] := by
  have hv : AuthJwtCsrf.verify_update_jwt key req now
      = .error (.http 404 "No JWT exist: may not set yet or deleted.") := by
    unfold AuthJwtCsrf.verify_update_jwt AuthJwtCsrf.verify_jwt
    rw [h]
  constructor
  · unfold RouteAuth.get_user_refresh_jwt
    rw [hv]
  · unfold RouteAuth.get_user_refresh_jwt
    rw [hv]
    rfl

/-- Witness for C9: the concrete cookieless request at second 0. -/
theorem claim_C9_get_user_no_cookie_witness :
    RouteAuth.get_user_refresh_jwt ['k'] ⟨none, none⟩ 0
        = .error (.http 404 "No JWT exist: may not set yet or deleted.") ∧
      deliveredCookies (RouteAuth.get_user_refresh_jwt ['k'] ⟨none, none⟩ 0) = [] :=
  claim_C9_get_user_no_cookie ['k'] ⟨none, none⟩ 0 rfl

theorem mutate_handler_split (key : PyStr) (csrfOk : PyStr → Bool)
    (req : AuthJwtCsrf.Request) (now : Nat) :
    (∃ s, AuthJwtCsrf.verify_jwt key req now = .ok s ∧
      AuthJwtCsrf.verify_csrf_update_jwt key csrfOk req now
        = .ok (AuthJwtCsrf.encode_jwt key s now)) ∨
    (∃ e, AuthJwtCsrf.verify_csrf_update_jwt key csrfOk req now = .error e) := by
  cases h : AuthJwtCsrf.verify_csrf_update_jwt key csrfOk req now with
  | error e => exact Or.inr ⟨e, rfl⟩
  | ok tk =>
    obtain ⟨s, hs, htk⟩ := verify_csrf_ok_inv key csrfOk req now tk h
    exact Or.inl ⟨s, hs, by rw [← htk]⟩

/-- C1: each mutating todo handler (`create_todo`, `update_todo`,
`delete_todo`) either returns successfully with the session cookie on its
response rotated to a token freshly issued for the verified subject, or
fails with an exception — and since FastAPI builds the error response
afresh when an `HTTPException` propagates, the delivered failure response
carries no `Set-Cookie` entry at all, even though the handler body calls
`set_cookie` before testing the database result. -/
theorem claim_C1_mutating_ops_atomic_cookie (key : PyStr) (csrfOk : PyStr → Bool)
    (req : AuthJwtCsrf.Request) (now : Nat) (dbC dbU : Option TodoDict) (dbD : Bool) :
    ((∃ st t s, RouteTodo.create_todo key csrfOk req now dbC = .ok (st, t) ∧
        AuthJwtCsrf.verify_jwt key req now = .ok s ∧
        st.cookies = [(AuthJwtCsrf.jwt_token_cookie_key,
          bearer (AuthJwtCsrf.encode_jwt key s now))]) ∨
      (∃ e, RouteTodo.create_todo key csrfOk req now dbC = .error e ∧
        deliveredCookies (RouteTodo.create_todo key csrfOk req now dbC) = [])) ∧
    ((∃ st t s, RouteTodo.update_todo key csrfOk req now dbU = .ok (st, t) ∧
        AuthJwtCsrf.verify_jwt key req now = .ok s ∧
        st.cookies = [(AuthJwtCsrf.jwt_token_cookie_key,
          bearer (AuthJwtCsrf.encode_jwt key s now))]) ∨
      (∃ e, RouteTodo.update_todo key csrfOk req now dbU = .error e ∧
        deliveredCookies (RouteTodo.update_todo key csrfOk req now dbU) = [])) ∧
    ((∃ st m s, RouteTodo.delete_todo key csrfOk req now dbD = .ok (st, m) ∧
        AuthJwtCsrf.verify_jwt key req now = .ok s ∧
        st.cookies = [(AuthJwtCsrf.jwt_token_cookie_key,
          bearer (AuthJwtCsrf.encode_jwt key s now))]) ∨
      (∃ e, RouteTodo.delete_todo key csrfOk req now dbD = .error e ∧
        deliveredCookies (RouteTodo.delete_todo key csrfOk req now dbD) = [])) := by
  refine ⟨?_, ?_, ?_⟩
  · rcases mutate_handler_split key csrfOk req now with ⟨s, hs, hok⟩ | ⟨e, he⟩
    · cases hdb : dbC with
      | none =>
        refine Or.inr ⟨.http 404 "Create task failed.", ?_, ?_⟩ <;>
          · unfold RouteTodo.create_todo
            rw [hok]
            try rfl
      | some todo =>
        have hcr : RouteTodo.create_todo key csrfOk req now (some todo)
            = .ok (⟨[(AuthJwtCsrf.jwt_token_cookie_key,
                bearer (AuthJwtCsrf.encode_jwt key s now))], some 201⟩, todo) := by
          unfold RouteTodo.create_todo
          rw [hok]
          try rfl
        exact Or.inl ⟨_, todo, s, hcr, hs, rfl⟩
    · refine Or.inr ⟨e, ?_, ?_⟩ <;>
        · unfold RouteTodo.create_todo
          rw [he]
          try rfl
  · rcases mutate_handler_split key csrfOk req now with ⟨s, hs, hok⟩ | ⟨e, he⟩
    · cases hdb : dbU with
      | none =>
        refine Or.inr ⟨.http 404 "Update task failed.", ?_, ?_⟩ <;>
          · unfold RouteTodo.update_todo
            rw [hok]
            try rfl
      | some todo =>
        have hup : RouteTodo.update_todo key csrfOk req now (some todo)
            = .ok (⟨[(AuthJwtCsrf.jwt_token_cookie_key,
                bearer (AuthJwtCsrf.encode_jwt key s now))], none⟩, todo) := by
          unfold RouteTodo.update_todo
          rw [hok]
          try rfl
        exact Or.inl ⟨_, todo, s, hup, hs, rfl⟩
    · refine Or.inr ⟨e, ?_, ?_⟩ <;>
        · unfold RouteTodo.update_todo
          rw [he]
          try rfl
  · rcases mutate_handler_split key csrfOk req now with ⟨s, hs, hok⟩ | ⟨e, he⟩
    · cases hdb : dbD with
      | false =>
        refine Or.inr ⟨.http 404 "Delete task failed.", ?_, ?_⟩ <;>
          · unfold RouteTodo.delete_todo
            rw [hok]
            try rfl
      | true =>
        have hdl : RouteTodo.delete_todo key csrfOk req now true
            = .ok (⟨[(AuthJwtCsrf.jwt_token_cookie_key,
                bearer (AuthJwtCsrf.encode_jwt key s now))], none⟩, "Successfully deleted.") := by
          unfold RouteTodo.delete_todo
          rw [hok]
          try rfl
        exact Or.inl ⟨_, "Successfully deleted.", s, hdl, hs, rfl⟩
    · refine Or.inr ⟨e, ?_, ?_⟩ <;>
        · unfold RouteTodo.delete_todo
          rw [he]
          try rfl
